import Mathlib

/-!
Verification development for the audio-processing bridge (`bridge.h` /
`bridge.cpp`): a shallow embedding of the bridge's data model and entry
points, together with theorems settling the specification's claims.

Modelling conventions:
* Audio samples are only shuttled by the bridge (never arithmetically
  transformed), so both the `float` and the `int16_t` sample types are
  modelled as `Int`; `double` statistic values are modelled as `Rat`.
* C `int` parameters and fields are modelled as `Int`.
* The external audio-enhancement engine (`webrtc::AudioProcessing`) is
  opaque to the bridge; it is modelled as a record of response functions
  plus the hint state the bridge can set through it.
* Raw pointers that may be null are modelled as `Option`; an unguarded
  dereference of a null handle is modelled as an `Except.error` outcome
  (`BridgeFault.nullDeref`), while entry points that guard the handle
  never produce that outcome.
* The per-channel pointer tables (`capture_ptrs` / `render_ptrs`) always
  alias the per-channel arrays, so the model identifies the pointer table
  with the buffer (`List (List Int)`) it points into.
-/

/-- APM_SAMPLE_RATE_HZ from `bridge.h`: the fixed sample rate. -/
def APM_SAMPLE_RATE_HZ : Nat := 48000

/-- APM_FRAME_MS from `bridge.h`: the fixed frame duration in milliseconds. -/
def APM_FRAME_MS : Nat := 10

/-- APM_NUM_SAMPLES_PER_FRAME from `bridge.h`:
`APM_SAMPLE_RATE_HZ * APM_FRAME_MS / 1000`. -/
def APM_NUM_SAMPLES_PER_FRAME : Nat := APM_SAMPLE_RATE_HZ * APM_FRAME_MS / 1000

/-- webrtc::AudioProcessing::kNoError, the engine's canonical success value.
The bridge's own header documents "Returns 0 on success" and `Create`
publishes `0` through `error_code` on its success path. -/
def kNoError : Int := 0

/-- webrtc::AudioProcessing::kBadParameterError. The numeric value (-6) is
fixed by the engine's published error enumeration (external to this
repository); the bridge only reuses the named constant. -/
def kBadParameterError : Int := -6

/-- ApmAnalogMicGainEmulation from `bridge.h`. -/
structure ApmAnalogMicGainEmulation where
  enabled : Bool
  initial_level : Int
deriving DecidableEq

/-- ApmCaptureLevelAdjustment from `bridge.h` (declared but never read by
`bridge.cpp`). -/
structure ApmCaptureLevelAdjustment where
  enabled : Bool
  pre_gain_factor : Rat
  post_gain_factor : Rat
  analog_mic_gain_emulation : ApmAnalogMicGainEmulation
deriving DecidableEq

/-- ApmEchoCancellation from `bridge.h`. -/
structure ApmEchoCancellation where
  enabled : Bool
  mobile_mode : Bool
  stream_delay : Int
deriving DecidableEq

/-- Modelled from the spec: the gain-control group of the host configuration
as consumed by `parseConfig` — "(enabled, mode enum {adaptive-analog,
adaptive-digital, fixed-digital}, target level, compression gain, limiter
flag)". The copy of `bridge.h` under `src/` declares a divergent
gain-control schema (input-volume-controller / headroom / max-gain fields)
that `parseConfig` never reads; the spec flags the two schemas as a
versioning inconsistency and describes the translator against this one.
The mode enum travels by numeric identity, so it is carried as `Int`. -/
structure ApmGainControl where
  enabled : Bool
  mode : Int
  target_level_dbfs : Int
  compression_gain_db : Int
  enable_limiter : Bool
deriving DecidableEq

/-- ApmNoiseSuppression from `bridge.h`; the `NsLevel` enum travels by
numeric identity, so it is carried as `Int`. -/
structure ApmNoiseSuppression where
  enabled : Bool
  suppression_level : Int
deriving DecidableEq

/-- ApmConfig from `bridge.h`: the host-facing configuration record. -/
structure ApmConfig where
  capture_level_adjustment : ApmCaptureLevelAdjustment
  echo_cancellation : ApmEchoCancellation
  gain_control : ApmGainControl
  noise_suppression : ApmNoiseSuppression
  high_pass_filter_enabled : Bool
  capture_channels : Int
  render_channels : Int
deriving DecidableEq

/-- Engine-side high-pass-filter configuration group
(webrtc::AudioProcessing::Config::HighPassFilter); default-constructed
value has the filter disabled. -/
structure HighPassFilterCfg where
  enabled : Bool := false
deriving DecidableEq

/-- Engine-side echo-canceller configuration group
(webrtc::AudioProcessing::Config::EchoCanceller). The engine's
default-constructed value has `enforce_high_pass_filtering = true`;
`parseConfig` only ever overwrites it to `false`. -/
structure EchoCancellerCfg where
  enabled : Bool := false
  mobile_mode : Bool := false
  enforce_high_pass_filtering : Bool := true
deriving DecidableEq

/-- Engine-side gain-controller configuration group
(webrtc::AudioProcessing::Config::GainController1); the mode enum is
carried by its numeric value. -/
structure GainController1Cfg where
  enabled : Bool := false
  mode : Int := 0
  target_level_dbfs : Int := 3
  compression_gain_db : Int := 9
  enable_limiter : Bool := true
deriving DecidableEq

/-- Engine-side noise-suppression configuration group
(webrtc::AudioProcessing::Config::NoiseSuppression); the level enum is
carried by its numeric value. -/
structure NoiseSuppressionCfg where
  enabled : Bool := false
  level : Int := 1
deriving DecidableEq

/-- Engine-side configuration record (webrtc::AudioProcessing::Config),
restricted to the groups the bridge's translator touches. -/
structure EngineConfig where
  high_pass_filter : HighPassFilterCfg := {}
  echo_canceller : EchoCancellerCfg := {}
  gain_controller1 : GainController1Cfg := {}
  noise_suppression : NoiseSuppressionCfg := {}
deriving DecidableEq

/-- webrtc::StreamConfig: sample rate plus channel count. -/
structure StreamConfig where
  sample_rate_hz : Int
  num_channels : Int
deriving DecidableEq

/-- webrtc::ProcessingConfig: the four stream layouts handed to the
engine's initialization. -/
structure ProcessingConfig where
  input_stream : StreamConfig
  output_stream : StreamConfig
  reverse_input_stream : StreamConfig
  reverse_output_stream : StreamConfig
deriving DecidableEq

/-- webrtc::AudioProcessingStats: the engine's optional-valued metrics
bundle; `none` models "no estimate available". -/
structure AudioProcessingStats where
  echo_return_loss : Option Rat := none
  echo_return_loss_enhancement : Option Rat := none
  divergent_filter_fraction : Option Rat := none
  residual_echo_likelihood : Option Rat := none
  delay_median_ms : Option Int := none
  delay_standard_deviation_ms : Option Int := none
  delay_ms : Option Int := none
deriving DecidableEq

/-- Opaque model of the external audio-enhancement engine
(webrtc::AudioProcessing): response functions for the operations the
bridge invokes, plus the hint/configuration state the bridge can write.
Each processing function receives the buffers together with the input and
output stream configurations and yields the status and the buffer
contents left behind by the (in-place) call. -/
structure Engine where
  initStream : ProcessingConfig → Int
  processCapture : List (List Int) → StreamConfig → StreamConfig → Int × List (List Int)
  processCaptureInt : List Int → StreamConfig → StreamConfig → Int × List Int
  processRender : List (List Int) → StreamConfig → StreamConfig → Int × List (List Int)
  processRenderInt : List Int → StreamConfig → StreamConfig → Int × List Int
  stats : AudioProcessingStats
  config : EngineConfig
  streamDelay : Int
  outputMuted : Bool
  keyPressed : Bool
  reinitCount : Nat

/-- AudioProcessor from `bridge.cpp`: the heap aggregate behind an
`ApmHandle`. The pointer tables `capture_ptrs` / `render_ptrs` always
alias `capture_buffer` / `render_buffer`, so the model keeps only the
buffers. -/
structure AudioProcessor where
  processor : Engine
  capture_stream_config : StreamConfig
  render_stream_config : StreamConfig
  capture_channels : Int
  render_channels : Int
  capture_buffer : List (List Int)
  render_buffer : List (List Int)

/-- ApmStats from `bridge.h`; defaults mirror the zero initialization
`ApmStats stats = {};` in `GetStatistics`. -/
structure ApmStats where
  residual_echo_likelihood : Rat := 0
  echo_return_loss : Rat := 0
  echo_return_loss_enhancement : Rat := 0
  divergent_filter_fraction : Rat := 0
  delay_median_ms : Int := 0
  delay_std_ms : Int := 0
  delay_ms : Int := 0
deriving DecidableEq

/-- Outcome of dereferencing a null `ApmHandle` without a guard. Entry
points that test the handle first never produce this outcome. -/
inductive BridgeFault where
  | nullDeref
deriving DecidableEq

/-- deinterleave from `bridge.cpp`: writes `dst[ch][i] = src[i * C + ch]`
for `ch < num_channels`, `i < num_samples` into the planar destination.
The model returns the destination after the write loop: positions the
loop does not reach keep their previous contents. -/
def deinterleave (src : List Int) (dst : List (List Int))
    (num_channels num_samples : Nat) : List (List Int) :=
  (List.range dst.length).map fun ch =>
    if ch < num_channels then
      (List.range (dst.getD ch []).length).map fun i =>
        if i < num_samples then src.getD (i * num_channels + ch) 0
        else (dst.getD ch []).getD i 0
    else dst.getD ch []

/-- interleave from `bridge.cpp`: writes `dst[i * C + ch] = src[ch][i]`
for `ch < num_channels`, `i < num_samples` into the interleaved
destination. The written positions are exactly the indices below
`num_samples * num_channels`; the model returns the destination after the
write loop, positions the loop does not reach keeping their previous
contents. -/
def interleave (src : List (List Int)) (dst : List Int)
    (num_channels num_samples : Nat) : List Int :=
  (List.range dst.length).map fun j =>
    if j < num_samples * num_channels then
      (src.getD (j % num_channels) []).getD (j / num_channels) 0
    else dst.getD j 0

/-- parseConfig from `bridge.cpp`: translation of the host configuration
into the engine configuration. The engine record starts from its
default-constructed value; `enforce_high_pass_filtering` is forced off
when the high-pass filter is disabled and otherwise keeps the engine
default. The source's `enable_limiter != 0` is the identity on the
boolean limiter flag. -/
def parseConfig (apmConfig : ApmConfig) : EngineConfig :=
  { high_pass_filter := { enabled := apmConfig.high_pass_filter_enabled }
    echo_canceller :=
      { enabled := apmConfig.echo_cancellation.enabled
        mobile_mode := apmConfig.echo_cancellation.mobile_mode
        enforce_high_pass_filtering :=
          if !apmConfig.high_pass_filter_enabled then false
          else ({} : EchoCancellerCfg).enforce_high_pass_filtering }
    gain_controller1 :=
      { enabled := apmConfig.gain_control.enabled
        mode := apmConfig.gain_control.mode
        target_level_dbfs := apmConfig.gain_control.target_level_dbfs
        compression_gain_db := apmConfig.gain_control.compression_gain_db
        enable_limiter := apmConfig.gain_control.enable_limiter }
    noise_suppression :=
      { enabled := apmConfig.noise_suppression.enabled
        level := apmConfig.noise_suppression.suppression_level } }

/-- Create from `bridge.cpp`. The engine builder
(`BuiltinAudioProcessingBuilder(config).Build(CreateEnvironment())`) is an
external collaborator and is passed in as `build`; it may fail, modelled
by `Option`. The result pairs the produced handle (or `none`) with the
value left in `*error_code`. -/
def Create (apmConfig : ApmConfig) (build : EngineConfig → Option Engine) :
    Option AudioProcessor × Int :=
  if apmConfig.capture_channels = 0 ∨ apmConfig.render_channels = 0 then
    (none, kBadParameterError)
  else
    let config := parseConfig apmConfig
    match build config with
    | none => (none, -2)
    | some proc =>
      let capture_stream_config : StreamConfig :=
        ⟨(APM_SAMPLE_RATE_HZ : Int), apmConfig.capture_channels⟩
      let render_stream_config : StreamConfig :=
        ⟨(APM_SAMPLE_RATE_HZ : Int), apmConfig.render_channels⟩
      let pconfig : ProcessingConfig :=
        ⟨capture_stream_config, capture_stream_config,
          render_stream_config, render_stream_config⟩
      let code := proc.initStream pconfig
      if code ≠ kNoError then (none, code)
      else
        let proc2 :=
          if apmConfig.echo_cancellation.enabled then
            { proc with streamDelay := apmConfig.echo_cancellation.stream_delay }
          else proc
        let capture_buffer :=
          List.replicate apmConfig.capture_channels.toNat
            (List.replicate APM_NUM_SAMPLES_PER_FRAME (0 : Int))
        let render_buffer :=
          List.replicate apmConfig.render_channels.toNat
            (List.replicate APM_NUM_SAMPLES_PER_FRAME (0 : Int))
        (some
          { processor := proc2
            capture_stream_config := capture_stream_config
            render_stream_config := render_stream_config
            capture_channels := apmConfig.capture_channels
            render_channels := apmConfig.render_channels
            capture_buffer := capture_buffer
            render_buffer := render_buffer }, 0)

/-- Destroy from `bridge.cpp`: guarded by a null check, hence never
faults; releasing the aggregate has no observable value-level effect in
the model. -/
def Destroy (handle : Option AudioProcessor) : Except BridgeFault Unit :=
  match handle with
  | some _ => Except.ok ()
  | none => Except.ok ()

/-- Initialize (the handle-level entry point) from `bridge.cpp`: guarded
by a null check; forwards to the engine's parameterless initialization,
modelled as bumping the engine's reinitialization counter. (Named
`InitializeHandle` here; the C entry point is the bridge's
handle-taking initialization function.) -/
def InitializeHandle (handle : Option AudioProcessor) :
    Except BridgeFault (Option AudioProcessor) :=
  match handle with
  | some ap =>
    Except.ok (some
      { ap with processor := { ap.processor with reinitCount := ap.processor.reinitCount + 1 } })
  | none => Except.ok none

/-- ApplyConfig from `bridge.cpp`: translates the configuration and
forwards it to the engine's live reconfiguration entry point. There is no
null check: a null handle is dereferenced, modelled as a fault. -/
def ApplyConfig (handle : Option AudioProcessor) (apmConfig : ApmConfig) :
    Except BridgeFault AudioProcessor :=
  let config := parseConfig apmConfig
  match handle with
  | none => Except.error BridgeFault.nullDeref
  | some ap =>
    Except.ok { ap with processor := { ap.processor with config := config } }

/-- ProcessStream from `bridge.cpp` (float capture path). Returns the
status, the contents of the caller's `samples` buffer after the call, and
the handle state after the call. -/
def ProcessStream (handle : Option AudioProcessor) (samples : Option (List Int))
    (num_channels : Int) : Int × Option (List Int) × Option AudioProcessor :=
  match handle, samples with
  | none, s => (kBadParameterError, s, none)
  | some ap, none => (kBadParameterError, none, some ap)
  | some ap, some buf =>
    if num_channels ≠ ap.capture_channels then (kBadParameterError, some buf, some ap)
    else
      let deint := deinterleave buf ap.capture_buffer num_channels.toNat
        APM_NUM_SAMPLES_PER_FRAME
      let r := ap.processor.processCapture deint
        ap.capture_stream_config ap.capture_stream_config
      let ap2 := { ap with capture_buffer := r.2 }
      if r.1 = kNoError then
        (r.1, some (interleave r.2 buf num_channels.toNat APM_NUM_SAMPLES_PER_FRAME),
          some ap2)
      else (r.1, some buf, some ap2)

/-- ProcessIntStream from `bridge.cpp` (fixed-point capture path): the
engine is invoked directly on the interleaved buffer, in place, with no
success gating on the returned contents. -/
def ProcessIntStream (handle : Option AudioProcessor) (samples : Option (List Int))
    (num_channels : Int) : Int × Option (List Int) × Option AudioProcessor :=
  match handle, samples with
  | none, s => (kBadParameterError, s, none)
  | some ap, none => (kBadParameterError, none, some ap)
  | some ap, some buf =>
    if num_channels ≠ ap.capture_channels then (kBadParameterError, some buf, some ap)
    else
      let r := ap.processor.processCaptureInt buf
        ap.capture_stream_config ap.capture_stream_config
      (r.1, some r.2, some ap)

/-- ProcessReverseStream from `bridge.cpp` (float render path). -/
def ProcessReverseStream (handle : Option AudioProcessor) (samples : Option (List Int))
    (num_channels : Int) : Int × Option (List Int) × Option AudioProcessor :=
  match handle, samples with
  | none, s => (kBadParameterError, s, none)
  | some ap, none => (kBadParameterError, none, some ap)
  | some ap, some buf =>
    if num_channels ≠ ap.render_channels then (kBadParameterError, some buf, some ap)
    else
      let deint := deinterleave buf ap.render_buffer num_channels.toNat
        APM_NUM_SAMPLES_PER_FRAME
      let r := ap.processor.processRender deint
        ap.render_stream_config ap.render_stream_config
      let ap2 := { ap with render_buffer := r.2 }
      if r.1 = kNoError then
        (r.1, some (interleave r.2 buf num_channels.toNat APM_NUM_SAMPLES_PER_FRAME),
          some ap2)
      else (r.1, some buf, some ap2)

/-- ProcessReverseIntStream from `bridge.cpp` (fixed-point render path).
Unlike the other three processing entry points, its null-argument guard
returns the literal `-1`, not `kBadParameterError`. -/
def ProcessReverseIntStream (handle : Option AudioProcessor) (samples : Option (List Int))
    (num_channels : Int) : Int × Option (List Int) × Option AudioProcessor :=
  match handle, samples with
  | none, s => ((-1 : Int), s, none)
  | some ap, none => ((-1 : Int), none, some ap)
  | some ap, some buf =>
    if num_channels ≠ ap.render_channels then (kBadParameterError, some buf, some ap)
    else
      let r := ap.processor.processRenderInt buf
        ap.render_stream_config ap.render_stream_config
      (r.1, some r.2, some ap)

/-- GetStatistics from `bridge.cpp`: guarded by a null check, hence never
faults; a null handle yields the zero-initialized record, a live handle
copies each engine metric with `value_or(0)`. -/
def GetStatistics (handle : Option AudioProcessor) : Except BridgeFault ApmStats :=
  match handle with
  | none => Except.ok {}
  | some ap =>
    let s := ap.processor.stats
    Except.ok
      { echo_return_loss := s.echo_return_loss.getD 0
        echo_return_loss_enhancement := s.echo_return_loss_enhancement.getD 0
        divergent_filter_fraction := s.divergent_filter_fraction.getD 0
        residual_echo_likelihood := s.residual_echo_likelihood.getD 0
        delay_median_ms := s.delay_median_ms.getD 0
        delay_std_ms := s.delay_standard_deviation_ms.getD 0
        delay_ms := s.delay_ms.getD 0 }

/-- set_stream_delay_ms from `bridge.cpp`: guarded by a null check;
forwards the delay hint to the engine. -/
def set_stream_delay_ms (handle : Option AudioProcessor) (delay_ms : Int) :
    Except BridgeFault (Option AudioProcessor) :=
  match handle with
  | none => Except.ok none
  | some ap =>
    Except.ok (some { ap with processor := { ap.processor with streamDelay := delay_ms } })

/-- stream_delay_ms from `bridge.cpp`: guarded by a null check; a null
handle reads as 0. -/
def stream_delay_ms (handle : Option AudioProcessor) : Except BridgeFault Int :=
  match handle with
  | none => Except.ok 0
  | some ap => Except.ok ap.processor.streamDelay

/-- set_output_will_be_muted from `bridge.cpp`: guarded by a null check;
the source's `muted != 0` is the identity on the boolean. -/
def set_output_will_be_muted (handle : Option AudioProcessor) (muted : Bool) :
    Except BridgeFault (Option AudioProcessor) :=
  match handle with
  | none => Except.ok none
  | some ap =>
    Except.ok (some { ap with processor := { ap.processor with outputMuted := muted } })

/-- set_stream_key_pressed from `bridge.cpp`: guarded by a null check;
the source's `pressed != 0` is the identity on the boolean. -/
def set_stream_key_pressed (handle : Option AudioProcessor) (pressed : Bool) :
    Except BridgeFault (Option AudioProcessor) :=
  match handle with
  | none => Except.ok none
  | some ap =>
    Except.ok (some { ap with processor := { ap.processor with keyPressed := pressed } })

/-- is_success from `bridge.cpp`: 1 exactly on the engine's canonical
no-error value, 0 otherwise. -/
def is_success (code : Int) : Int :=
  if code = kNoError then 1 else 0

/-- get_num_samples_per_frame from `bridge.cpp`. -/
def get_num_samples_per_frame : Int := (APM_NUM_SAMPLES_PER_FRAME : Int)

/-- get_sample_rate_hz from `bridge.cpp`. -/
def get_sample_rate_hz : Int := (APM_SAMPLE_RATE_HZ : Int)

/-!
Concrete objects used to instantiate theorems that carry hypotheses.
-/

/-- Concrete engine instance: every operation succeeds and leaves the
buffers as it received them; the statistics bundle reports one available
metric and leaves the rest unavailable. -/
def probeEngine : Engine :=
  { initStream := fun _ => kNoError
    processCapture := fun bufs _ _ => (kNoError, bufs)
    processCaptureInt := fun buf _ _ => (kNoError, buf)
    processRender := fun bufs _ _ => (kNoError, bufs)
    processRenderInt := fun buf _ _ => (kNoError, buf)
    stats := { echo_return_loss := some 5 }
    config := {}
    streamDelay := 0
    outputMuted := false
    keyPressed := false
    reinitCount := 0 }

/-- Concrete mono handle built over `probeEngine`. -/
def probeAp : AudioProcessor :=
  { processor := probeEngine
    capture_stream_config := ⟨(APM_SAMPLE_RATE_HZ : Int), 1⟩
    render_stream_config := ⟨(APM_SAMPLE_RATE_HZ : Int), 1⟩
    capture_channels := 1
    render_channels := 1
    capture_buffer := [List.replicate APM_NUM_SAMPLES_PER_FRAME (0 : Int)]
    render_buffer := [List.replicate APM_NUM_SAMPLES_PER_FRAME (0 : Int)] }

/-- Concrete host configuration with the high-pass filter disabled and
both channel counts positive. -/
def baseCfg : ApmConfig :=
  { capture_level_adjustment :=
      { enabled := false
        pre_gain_factor := 1
        post_gain_factor := 1
        analog_mic_gain_emulation := { enabled := false, initial_level := 0 } }
    echo_cancellation := { enabled := false, mobile_mode := false, stream_delay := 0 }
    gain_control :=
      { enabled := false
        mode := 0
        target_level_dbfs := 3
        compression_gain_db := 9
        enable_limiter := true }
    noise_suppression := { enabled := false, suppression_level := 1 }
    high_pass_filter_enabled := false
    capture_channels := 1
    render_channels := 1 }

/-!
Claim theorems.
-/

/-- C1: for every host configuration whose high-pass-filter flag is
false, the translated engine configuration has the echo canceller's
enforce-high-pass-filtering option off, regardless of every other field
of the input configuration. -/
theorem hpf_disabled_forces_no_enforce (cfg : ApmConfig)
    (h : cfg.high_pass_filter_enabled = false) :
    (parseConfig cfg).echo_canceller.enforce_high_pass_filtering = false := by
  simp [parseConfig, h]

/-- Witness for C1 at the concrete configuration `baseCfg`. -/
theorem hpf_disabled_forces_no_enforce_witness :
    (parseConfig baseCfg).echo_canceller.enforce_high_pass_filtering = false :=
  hpf_disabled_forces_no_enforce baseCfg rfl

/-- C5: the translator copies every gain-control field (enabled flag,
mode enum by numeric identity, target level, compression gain, limiter
flag) and every noise-suppression field (enabled flag, level enum by
numeric identity) verbatim into the matching engine configuration field,
for every host configuration. -/
theorem parseConfig_copies_gain_and_ns (cfg : ApmConfig) :
    (parseConfig cfg).gain_controller1.enabled = cfg.gain_control.enabled ∧
    (parseConfig cfg).gain_controller1.mode = cfg.gain_control.mode ∧
    (parseConfig cfg).gain_controller1.target_level_dbfs =
      cfg.gain_control.target_level_dbfs ∧
    (parseConfig cfg).gain_controller1.compression_gain_db =
      cfg.gain_control.compression_gain_db ∧
    (parseConfig cfg).gain_controller1.enable_limiter = cfg.gain_control.enable_limiter ∧
    (parseConfig cfg).noise_suppression.enabled = cfg.noise_suppression.enabled ∧
    (parseConfig cfg).noise_suppression.level = cfg.noise_suppression.suppression_level :=
  ⟨rfl, rfl, rfl, rfl, rfl, rfl, rfl⟩

/-- C7: Create with a zero capture channel count or a zero render channel
count returns no handle and the bad-parameter code, for every other field
combination and every engine builder (so no engine is constructed). -/
theorem create_zero_channels (cfg : ApmConfig) (build : EngineConfig → Option Engine)
    (h : cfg.capture_channels = 0 ∨ cfg.render_channels = 0) :
    Create cfg build = (none, kBadParameterError) := by
  unfold Create
  rw [if_pos h]

/-- Witness for C7 at a concrete zero-capture-channel configuration. -/
theorem create_zero_channels_witness :
    Create { baseCfg with capture_channels := 0 } (fun _ => none) =
      (none, kBadParameterError) :=
  create_zero_channels _ _ (Or.inl rfl)

/-- C9: is_success accepts exactly the engine's canonical no-error value
and rejects every other code, including the bad-parameter sentinel and
the construction-failed sentinel (-2), which Create publishes when the
engine builder yields no engine. -/
theorem is_success_spec (code : Int) (cfg : ApmConfig)
    (build : EngineConfig → Option Engine)
    (hcap : cfg.capture_channels ≠ 0) (hren : cfg.render_channels ≠ 0)
    (hbuild : build (parseConfig cfg) = none) :
    (is_success code = 1 ↔ code = kNoError) ∧
    (code ≠ kNoError → is_success code = 0) ∧
    is_success kBadParameterError = 0 ∧
    is_success (-2) = 0 ∧
    Create cfg build = (none, -2) := by
  refine ⟨?_, ?_, by decide, by decide, ?_⟩
  · by_cases h : code = kNoError <;> simp [is_success, h]
  · intro h
    simp [is_success, h]
  · unfold Create
    rw [if_neg (not_or.mpr ⟨hcap, hren⟩)]
    simp only [hbuild]

/-- Witness for C9 at code 7 and a failing builder over `baseCfg`. -/
theorem is_success_spec_witness :
    (is_success 7 = 1 ↔ (7 : Int) = kNoError) ∧
    ((7 : Int) ≠ kNoError → is_success 7 = 0) ∧
    is_success kBadParameterError = 0 ∧
    is_success (-2) = 0 ∧
    Create baseCfg (fun _ => none) = (none, -2) :=
  is_success_spec 7 baseCfg (fun _ => none) (by decide) (by decide) rfl

/-- C10: ApplyConfig dereferences a null handle (modelled as the
null-dereference fault), while the handle-guarded entry points — the
handle-level initialization, Destroy, GetStatistics, and the hint
setters/accessors — never fault, on every handle and argument. -/
theorem applyConfig_not_null_safe (cfg : ApmConfig) (h : Option AudioProcessor) :
    ApplyConfig none cfg = Except.error BridgeFault.nullDeref ∧
    InitializeHandle h ≠ Except.error BridgeFault.nullDeref ∧
    Destroy h ≠ Except.error BridgeFault.nullDeref ∧
    GetStatistics h ≠ Except.error BridgeFault.nullDeref ∧
    (∀ d, set_stream_delay_ms h d ≠ Except.error BridgeFault.nullDeref) ∧
    stream_delay_ms h ≠ Except.error BridgeFault.nullDeref ∧
    (∀ m, set_output_will_be_muted h m ≠ Except.error BridgeFault.nullDeref) ∧
    (∀ p, set_stream_key_pressed h p ≠ Except.error BridgeFault.nullDeref) := by
  cases h <;>
    exact ⟨rfl, fun hc => Except.noConfusion hc, fun hc => Except.noConfusion hc,
      fun hc => Except.noConfusion hc, fun _ hc => Except.noConfusion hc,
      fun hc => Except.noConfusion hc, fun _ hc => Except.noConfusion hc,
      fun _ hc => Except.noConfusion hc⟩

/-- Witness for C10 at the concrete configuration `baseCfg` and the null
handle. -/
theorem applyConfig_not_null_safe_witness :
    ApplyConfig none baseCfg = Except.error BridgeFault.nullDeref :=
  (applyConfig_not_null_safe baseCfg none).1

/-- C4 counterexample: with a null handle, ProcessReverseIntStream
returns -1, which is not the bad-parameter status the other entry points
(here ProcessStream at the same input) return, so the four null-argument
statuses are not one and the same. -/
theorem reverse_int_null_status_differs :
    (ProcessReverseIntStream none none 0).1 = -1 ∧
    (ProcessStream none none 0).1 = kBadParameterError ∧
    (-1 : Int) ≠ kBadParameterError :=
  ⟨rfl, rfl, by decide⟩

/-- C4 amended: with a null handle or a null samples buffer,
ProcessStream, ProcessIntStream and ProcessReverseStream return the
bad-parameter status, while ProcessReverseIntStream returns -1. -/
theorem null_args_statuses (h : Option AudioProcessor) (s : Option (List Int))
    (nc : Int) (hns : h = none ∨ s = none) :
    (ProcessStream h s nc).1 = kBadParameterError ∧
    (ProcessIntStream h s nc).1 = kBadParameterError ∧
    (ProcessReverseStream h s nc).1 = kBadParameterError ∧
    (ProcessReverseIntStream h s nc).1 = -1 := by
  rcases hns with rfl | rfl
  · exact ⟨rfl, rfl, rfl, rfl⟩
  · cases h <;> exact ⟨rfl, rfl, rfl, rfl⟩

/-- Witness for the amended C4 at the null handle. -/
theorem null_args_statuses_witness :
    (ProcessStream none (some []) 0).1 = kBadParameterError ∧
    (ProcessIntStream none (some []) 0).1 = kBadParameterError ∧
    (ProcessReverseStream none (some []) 0).1 = kBadParameterError ∧
    (ProcessReverseIntStream none (some []) 0).1 = -1 :=
  null_args_statuses none (some []) 0 (Or.inl rfl)

/-- C3: on a live handle with a channel count different from the
creation-time capture channel count, both capture entry points return the
bad-parameter status and leave the caller's buffer and the handle state
completely unchanged. -/
theorem process_capture_channel_mismatch (ap : AudioProcessor) (buf : List Int)
    (nc : Int) (h : nc ≠ ap.capture_channels) :
    ProcessStream (some ap) (some buf) nc = (kBadParameterError, some buf, some ap) ∧
    ProcessIntStream (some ap) (some buf) nc = (kBadParameterError, some buf, some ap) := by
  constructor
  · simp [ProcessStream, h]
  · simp [ProcessIntStream, h]

/-- Witness for C3 at the mono handle `probeAp` and channel count 2. -/
theorem process_capture_channel_mismatch_witness :
    ProcessStream (some probeAp) (some []) 2 = (kBadParameterError, some [], some probeAp) ∧
    ProcessIntStream (some probeAp) (some []) 2 =
      (kBadParameterError, some [], some probeAp) :=
  process_capture_channel_mismatch probeAp [] 2 (by decide)

/-- Engine response to the capture-processing invocation that
ProcessStream makes: the per-channel pointer table holds the capture
buffer just filled by deinterleaving the caller's samples, and is passed
as both input and output. -/
def captureResult (ap : AudioProcessor) (buf : List Int) (nc : Int) :
    Int × List (List Int) :=
  ap.processor.processCapture
    (deinterleave buf ap.capture_buffer nc.toNat APM_NUM_SAMPLES_PER_FRAME)
    ap.capture_stream_config ap.capture_stream_config

/-- C6: on a live handle with matching capture channel count,
ProcessStream hands the engine the deinterleaved caller samples through
the per-channel table, returns the engine's status verbatim, writes the
interleaved engine output back into the caller's buffer exactly when that
status is the success value (leaving the buffer as received otherwise),
and records the engine's buffer contents in the handle. -/
theorem process_capture_algorithm (ap : AudioProcessor) (buf : List Int) (nc : Int)
    (h : nc = ap.capture_channels) :
    (ProcessStream (some ap) (some buf) nc).1 = (captureResult ap buf nc).1 ∧
    ((captureResult ap buf nc).1 = kNoError →
      (ProcessStream (some ap) (some buf) nc).2.1 =
        some (interleave (captureResult ap buf nc).2 buf nc.toNat
          APM_NUM_SAMPLES_PER_FRAME)) ∧
    ((captureResult ap buf nc).1 ≠ kNoError →
      (ProcessStream (some ap) (some buf) nc).2.1 = some buf) ∧
    (ProcessStream (some ap) (some buf) nc).2.2 =
      some { ap with capture_buffer := (captureResult ap buf nc).2 } := by
  have hne : ¬nc ≠ ap.capture_channels := by simp [h]
  by_cases hr : (captureResult ap buf nc).1 = kNoError <;>
    simp [ProcessStream, captureResult, hne, hr] at hr ⊢ <;>
    simp [hr]

/-- Witness for C6 at the mono handle `probeAp` and a zero frame. -/
theorem process_capture_algorithm_witness :
    (ProcessStream (some probeAp)
        (some (List.replicate APM_NUM_SAMPLES_PER_FRAME (0 : Int))) 1).1 =
      (captureResult probeAp (List.replicate APM_NUM_SAMPLES_PER_FRAME (0 : Int)) 1).1 :=
  (process_capture_algorithm probeAp _ 1 rfl).1

/-- C8: GetStatistics on the null handle returns the all-zero record and
never fails; on a live handle, every metric the engine reports as
unavailable appears as zero, and every available metric appears with the
engine's value. -/
theorem getStatistics_defaults (ap : AudioProcessor) (st : ApmStats)
    (hst : GetStatistics (some ap) = Except.ok st) :
    GetStatistics none = Except.ok (⟨0, 0, 0, 0, 0, 0, 0⟩ : ApmStats) ∧
    (ap.processor.stats.residual_echo_likelihood = none →
      st.residual_echo_likelihood = 0) ∧
    (∀ v, ap.processor.stats.residual_echo_likelihood = some v →
      st.residual_echo_likelihood = v) ∧
    (ap.processor.stats.echo_return_loss = none → st.echo_return_loss = 0) ∧
    (∀ v, ap.processor.stats.echo_return_loss = some v → st.echo_return_loss = v) ∧
    (ap.processor.stats.echo_return_loss_enhancement = none →
      st.echo_return_loss_enhancement = 0) ∧
    (∀ v, ap.processor.stats.echo_return_loss_enhancement = some v →
      st.echo_return_loss_enhancement = v) ∧
    (ap.processor.stats.divergent_filter_fraction = none →
      st.divergent_filter_fraction = 0) ∧
    (∀ v, ap.processor.stats.divergent_filter_fraction = some v →
      st.divergent_filter_fraction = v) ∧
    (ap.processor.stats.delay_median_ms = none → st.delay_median_ms = 0) ∧
    (∀ v, ap.processor.stats.delay_median_ms = some v → st.delay_median_ms = v) ∧
    (ap.processor.stats.delay_standard_deviation_ms = none → st.delay_std_ms = 0) ∧
    (∀ v, ap.processor.stats.delay_standard_deviation_ms = some v →
      st.delay_std_ms = v) ∧
    (ap.processor.stats.delay_ms = none → st.delay_ms = 0) ∧
    (∀ v, ap.processor.stats.delay_ms = some v → st.delay_ms = v) := by
  simp only [GetStatistics] at hst
  injection hst with hst
  subst hst
  refine ⟨rfl, ?_, ?_, ?_, ?_, ?_, ?_, ?_, ?_, ?_, ?_, ?_, ?_, ?_, ?_⟩ <;>
    first
    | (intro hx; simp [hx])
    | (intro v hx; simp [hx])

/-- Witness for C8 at the handle `probeAp`, whose engine reports one
available metric and six unavailable ones. -/
theorem getStatistics_defaults_witness :
    GetStatistics none = Except.ok (⟨0, 0, 0, 0, 0, 0, 0⟩ : ApmStats) :=
  (getStatistics_defaults probeAp { echo_return_loss := 5 } rfl).1

/-- Reading a mapped index range with a default at an in-range position
yields the mapped value. -/
theorem getD_map_range {α : Type} (f : Nat → α) (n i : Nat) (h : i < n) (d : α) :
    ((List.range n).map f).getD i d = f i := by
  rw [List.getD_eq_getElem _ _ (by simpa using h)]
  simp

/-- Round-trip identity for the interleave codec at an arbitrary frame
length: interleaving the deinterleaved buffer back into the original
interleaved buffer restores it exactly, whenever the planar destination
has the matching channel count and frame length. -/
theorem interleave_deinterleave_eq (x : List Int) (planar : List (List Int))
    (C ns : Nat) (hC : 0 < C) (hx : x.length = C * ns) (hp : planar.length = C)
    (hrows : ∀ row ∈ planar, row.length = ns) :
    interleave (deinterleave x planar C ns) x C ns = x := by
  apply List.ext_getElem
  · simp [interleave]
  · intro j h1 h2
    have hj : j < ns * C := by
      rw [Nat.mul_comm]
      exact hx ▸ h2
    have hmod : j % C < C := Nat.mod_lt _ hC
    have hdiv : j / C < ns := (Nat.div_lt_iff_lt_mul hC).2 hj
    have hrow : (planar.getD (j % C) []).length = ns := by
      have hb : j % C < planar.length := by rw [hp]; exact hmod
      rw [List.getD_eq_getElem _ _ hb]
      exact hrows _ (List.getElem_mem hb)
    simp only [interleave, List.getElem_map, List.getElem_range]
    rw [if_pos hj]
    have e1 : (deinterleave x planar C ns).getD (j % C) [] =
        (List.range (planar.getD (j % C) []).length).map fun i =>
          if i < ns then x.getD (i * C + j % C) 0
          else (planar.getD (j % C) []).getD i 0 := by
      unfold deinterleave
      rw [getD_map_range _ _ _ (by rw [hp]; exact hmod)]
      rw [if_pos hmod]
    rw [e1, hrow, getD_map_range _ _ _ hdiv, if_pos hdiv,
      Nat.div_add_mod' j C, List.getD_eq_getElem _ _ h2]

/-- C2: for every channel count C > 0 and interleaved buffer of length
C × 480, interleaving the result of deinterleaving the buffer (into a
planar destination with matching channel count and 480 samples per
channel) restores the buffer exactly. -/
theorem interleave_deinterleave_id (x : List Int) (planar : List (List Int)) (C : Nat)
    (hC : 0 < C) (hx : x.length = C * APM_NUM_SAMPLES_PER_FRAME)
    (hp : planar.length = C)
    (hrows : ∀ row ∈ planar, row.length = APM_NUM_SAMPLES_PER_FRAME) :
    interleave (deinterleave x planar C APM_NUM_SAMPLES_PER_FRAME) x C
      APM_NUM_SAMPLES_PER_FRAME = x :=
  interleave_deinterleave_eq x planar C APM_NUM_SAMPLES_PER_FRAME hC hx hp hrows

/-- Witness for C2 in stereo: a 960-sample buffer of ones round-trips
through a 2 × 480 planar buffer. -/
theorem interleave_deinterleave_id_witness :
    interleave
      (deinterleave (List.replicate 960 (1 : Int))
        (List.replicate 2 (List.replicate 480 (0 : Int))) 2 APM_NUM_SAMPLES_PER_FRAME)
      (List.replicate 960 (1 : Int)) 2 APM_NUM_SAMPLES_PER_FRAME =
      List.replicate 960 (1 : Int) :=
  interleave_deinterleave_id _ _ 2 (by decide)
    (by simp only [List.length_replicate]; decide)
    (by simp only [List.length_replicate])
    (by
      intro row hrow
      rw [List.eq_of_mem_replicate hrow]
      simp only [List.length_replicate]
      decide)
